import Mathlib

/-!
# capi-watcher: condition evaluation, handler and watcher callbacks

A shallow embedding of `internal/handler/status_checker.go`,
`internal/watcher/watcher.go` and the wiring done in `main.go`.

* JSON-like content of an `unstructured.Unstructured` is the inductive `JSONValue`.
* A Go `map[string]interface{}` is an association list looked up by first key.
* A Go `error` is `Option Error` (`none` is `nil`).
* The library functions the handler calls (`unstructured.NestedSlice`, `NestedString`,
  `runtime.DeepCopyJSONValue`, `strings.EqualFold`, the zerolog level check) are embedded from
  their Go sources; the Unicode fold table and the typed conversion are parameters (`Externals`).
* Side effects (zerolog lines, `record.EventRecorder.Eventf` calls) are recorded in a `World`
  that is threaded through the stateful functions.
* A Go panic is the `Completion.panicked` outcome; nothing in the embedded code recovers.
-/

set_option autoImplicit false

namespace CapiWatcher

/-! ## Data model -/

/-- Values held by `map[string]interface{}` content decoded from JSON. `null` is the Go `nil`. -/
inductive JSONValue where
  | null
  | bool (b : Bool)
  | int64 (i : Int)
  | float64 (bits : Nat)
  | string (s : String)
  | slice (xs : List JSONValue)
  | map (fields : List (String × JSONValue))

/-- Go `map[string]interface{}`. -/
abbrev JSONMap := List (String × JSONValue)

/-- Map index expression `m[field]` with the comma-ok form. -/
def mapIndex (m : JSONMap) (field : String) : Option JSONValue :=
  List.lookup field m

mutual
/-- Copy made by `runtime.DeepCopyJSONValue`. -/
def DeepCopyJSONValue : JSONValue → JSONValue
  | .null => .null
  | .bool b => .bool b
  | .int64 i => .int64 i
  | .float64 f => .float64 f
  | .string s => .string s
  | .slice xs => .slice (DeepCopyJSONSlice xs)
  | .map m => .map (DeepCopyJSONFields m)
/-- Element-wise copy of a `[]interface{}`. -/
def DeepCopyJSONSlice : List JSONValue → List JSONValue
  | [] => []
  | x :: xs => DeepCopyJSONValue x :: DeepCopyJSONSlice xs
/-- Entry-wise copy of a `map[string]interface{}`. -/
def DeepCopyJSONFields : List (String × JSONValue) → List (String × JSONValue)
  | [] => []
  | (k, v) :: rest => (k, DeepCopyJSONValue v) :: DeepCopyJSONFields rest
end

/-- Go `error` values produced on the embedded paths. The accessor error keeps the JSON path and
the expected Go type of the message; the offending value printed by the message is left out. -/
inductive Error where
  | accessor (path : List String) (expected : String)
  | conversion (msg : String)
  deriving DecidableEq, Repr

/-- Content of `unstructured.Unstructured`: the field `Object map[string]interface{}`. -/
structure Unstructured where
  Object : JSONMap

/-- Outcome of running a Go function body: a normal return or a panic that left the body. -/
inductive Completion (α : Type) where
  | returned (a : α)
  | panicked (msg : String)
  deriving DecidableEq, Repr

/-- Levels of zerolog, ordered by `rank`. -/
inductive Level where
  | trace | debug | info | warn | error | fatal | panic | noLevel | disabled
  deriving DecidableEq, Repr

/-- Position of a zerolog level in the order of its numeric values (`TraceLevel = -1` up to
`Disabled = 7`), shifted by one. -/
def Level.rank : Level → Nat
  | .trace => 0 | .debug => 1 | .info => 2 | .warn => 3 | .error => 4
  | .fatal => 5 | .panic => 6 | .noLevel => 7 | .disabled => 8

/-- One line written by a zerolog event. -/
structure LogLine where
  level : Level
  err : Option Error
  fields : List (String × String)
  message : String
  deriving DecidableEq, Repr

/-- One call of `record.EventRecorder.Eventf`. -/
structure RecordedEvent (Cluster : Type) where
  object : Cluster
  eventtype : String
  reason : String
  message : String

/-- Observable effects so far: lines written to the log and calls made to the event recorder. -/
structure World (Cluster : Type) where
  logs : List LogLine
  events : List (RecordedEvent Cluster)

/-- A `zerolog.Logger`: `level` is the lowest level it writes (its own level joined with the
global level set in `main`). -/
structure Logger where
  level : Level
  deriving DecidableEq, Repr

/-- Code outside the repository that the handler calls and whose tables are not part of it. -/
structure Externals (Cluster : Type) where
  /-- The general case of `strings.EqualFold`: whether the runes `lo < hi`, not both ASCII, lie
  on one `unicode.SimpleFold` orbit. -/
  simpleFoldOrbit : Char → Char → Bool
  /-- Result of `runtime.DefaultUnstructuredConverter.FromUnstructured` into a zero `Cluster`:
  the (possibly partly filled) cluster and the error. -/
  FromUnstructured : JSONMap → Cluster × Option Error

/-! ## zerolog and the event recorder -/

section Effects
variable {Cluster : Type}

/-- Whether an event of level `lvl` is enabled on the logger (`Event.Enabled`). -/
def Logger.Enabled (l : Logger) (lvl : Level) : Bool :=
  decide (l.level.rank ≤ lvl.rank) && decide (lvl ≠ Level.disabled)

/-- Writing of an event with its accumulated fields (`Msg` / `Msgf`). -/
def Logger.write (l : Logger) (lvl : Level) (err : Option Error) (fields : List (String × String))
    (message : String) (w : World Cluster) : World Cluster :=
  if l.Enabled lvl then { w with logs := w.logs ++ [⟨lvl, err, fields, message⟩] } else w

/-- The chain `log.Debug().Str(..)...Msg(message)`. -/
def Logger.Debug (l : Logger) (fields : List (String × String)) (message : String)
    (w : World Cluster) : World Cluster :=
  l.write Level.debug none fields message w

/-- The chain `log.Info().Str(..)...Msg(message)`. -/
def Logger.Info (l : Logger) (fields : List (String × String)) (message : String)
    (w : World Cluster) : World Cluster :=
  l.write Level.info none fields message w

/-- The chain `log.Err(err).Str(..)...Msg(message)`: error level for a non-nil error, info level
for nil. -/
def Logger.Err (l : Logger) (err : Option Error) (fields : List (String × String))
    (message : String) (w : World Cluster) : World Cluster :=
  match err with
  | some e => l.write Level.error (some e) fields message w
  | none => l.write Level.info none fields message w

/-- The call `recorder.Eventf(object, eventtype, reason, messageFmt, args...)`, with the message
already formatted. -/
def Eventf (object : Cluster) (eventtype reason message : String) (w : World Cluster) :
    World Cluster :=
  { w with events := w.events ++ [⟨object, eventtype, reason, message⟩] }

end Effects

/-! ## `unstructured` accessors and `strings.EqualFold` -/

/-- Loop of `unstructured.NestedFieldNoCopy`, at index `i` of `fields` with `rest` left to visit. -/
def NestedFieldNoCopy.loop (fields : List String) :
    JSONValue → List String → Nat → JSONValue × Bool × Option Error
  | val, [], _ => (val, true, none)
  | .null, _ :: _, _ => (.null, false, none)
  | .map m, field :: rest, i =>
    match mapIndex m field with
    | none => (.null, false, none)
    | some val => NestedFieldNoCopy.loop fields val rest (i + 1)
  | _, _ :: _, i => (.null, false, some (.accessor (fields.take (i + 1)) "map[string]interface{}"))

/-- The function `unstructured.NestedFieldNoCopy(obj, fields...)`. -/
def NestedFieldNoCopy (obj : JSONMap) (fields : List String) : JSONValue × Bool × Option Error :=
  NestedFieldNoCopy.loop fields (.map obj) fields 0

/-- The function `unstructured.NestedSlice(obj, fields...)`. -/
def NestedSlice (obj : JSONMap) (fields : List String) : List JSONValue × Bool × Option Error :=
  match NestedFieldNoCopy obj fields with
  | (val, found, err) =>
    if !found || err.isSome then ([], found, err)
    else
      match val with
      | .slice xs => (DeepCopyJSONSlice xs, true, none)
      | _ => ([], false, some (.accessor fields "[]interface{}"))

/-- The function `unstructured.NestedString(obj, fields...)`. -/
def NestedString (obj : JSONMap) (fields : List String) : String × Bool × Option Error :=
  match NestedFieldNoCopy obj fields with
  | (val, found, err) =>
    if !found || err.isSome then ("", found, err)
    else
      match val with
      | .string s => (s, true, none)
      | _ => ("", false, some (.accessor fields "string"))

/-- The helper `getNestedString` behind the `Get*` accessors of `Unstructured`. -/
def getNestedString (obj : JSONMap) (fields : List String) : String :=
  match NestedString obj fields with
  | (val, found, err) => if !found || err.isSome then "" else val

/-- Accessor `GetKind`. -/
def Unstructured.GetKind (u : Unstructured) : String := getNestedString u.Object ["kind"]
/-- Accessor `GetAPIVersion`. -/
def Unstructured.GetAPIVersion (u : Unstructured) : String := getNestedString u.Object ["apiVersion"]
/-- Accessor `GetName`. -/
def Unstructured.GetName (u : Unstructured) : String := getNestedString u.Object ["metadata", "name"]
/-- Accessor `GetNamespace`. -/
def Unstructured.GetNamespace (u : Unstructured) : String :=
  getNestedString u.Object ["metadata", "namespace"]
/-- Accessor `UnstructuredContent`. -/
def Unstructured.UnstructuredContent (u : Unstructured) : JSONMap := u.Object
/-- Method `DeepCopy`: a new `Unstructured` whose `Object` is `runtime.DeepCopyJSON` of the old. -/
def Unstructured.DeepCopy (u : Unstructured) : Unstructured := ⟨DeepCopyJSONFields u.Object⟩

/-- One step of `strings.EqualFold` on the runes `sr` and `tr`: equal runes, or ASCII letters
that differ by case, or (a rune beyond ASCII being involved) runes on one fold orbit. -/
def EqualFold.rune (orbit : Char → Char → Bool) (sr tr : Char) : Bool :=
  if tr = sr then true
  else
    let lo := if tr < sr then tr else sr
    let hi := if tr < sr then sr else tr
    if hi.toNat < 0x80 then
      decide (0x41 ≤ lo.toNat) && decide (lo.toNat ≤ 0x5A) && decide (hi.toNat = lo.toNat + 0x20)
    else orbit lo hi

/-- Rune-by-rune walk of `strings.EqualFold`; strings of different rune counts differ. -/
def EqualFold.runes (orbit : Char → Char → Bool) : List Char → List Char → Bool
  | [], [] => true
  | [], _ :: _ => false
  | _ :: _, [] => false
  | sr :: s, tr :: t => EqualFold.rune orbit sr tr && EqualFold.runes orbit s t

/-- The function `strings.EqualFold(s, t)` on valid UTF-8 strings. -/
def EqualFold (orbit : Char → Char → Bool) (s t : String) : Bool :=
  EqualFold.runes orbit s.data t.data

/-! ## `internal/handler/status_checker.go` -/

/-- Options of `NewStatusChecker`; the `Recorder` is the event recorder whose calls a `World`
records. -/
structure StatusCheckerOpts where
  Log : Logger
  ConditionName : String
  ConditionStatus : String

/-- The handler type `statusChecker`. -/
structure statusChecker where
  log : Logger
  conditionName : String
  conditionStatus : String

/-- Constructor `NewStatusChecker`. -/
def NewStatusChecker (o : StatusCheckerOpts) : statusChecker :=
  { log := o.Log, conditionName := o.ConditionName, conditionStatus := o.ConditionStatus }

section Handler
variable {Cluster : Type}

/-- The `for _, el := range conditions` loop of `checkCondition`. The unchecked assertion
`el.(map[string]interface{})` panics on an element that is not a map. -/
def statusChecker.checkCondition.loop (orbit : Char → Char → Bool) (h : statusChecker) :
    List JSONValue → Completion (Bool × Option Error)
  | [] => .returned (false, none)
  | el :: rest =>
    match el with
    | .map co =>
      match NestedString co ["type"] with
      | (name, found, err) =>
        if !found || err.isSome || !EqualFold orbit name h.conditionName then
          statusChecker.checkCondition.loop orbit h rest
        else
          match NestedString co ["status"] with
          | (status, found, err) =>
            if !found || err.isSome then
              statusChecker.checkCondition.loop orbit h rest
            else
              .returned (EqualFold orbit status h.conditionStatus, none)
    | _ => .panicked "interface conversion: interface {} is not map[string]interface {}"

/-- The method `statusChecker.checkCondition`. -/
def statusChecker.checkCondition (ext : Externals Cluster) (h : statusChecker) (obj : Unstructured)
    (w : World Cluster) : Completion (Bool × Option Error) × World Cluster :=
  match NestedSlice obj.Object ["status", "conditions"] with
  | (conditions, ok, err) =>
    if err.isSome then
      (.returned (false, err), h.log.Err err [] "Looking for status.conditions" w)
    else if !ok then
      (.returned (false, none), h.log.Info [] "Object miss status.conditions fields." w)
    else
      (statusChecker.checkCondition.loop ext.simpleFoldOrbit h conditions, w)

/-- The three `Str` fields attached to the handler log lines. -/
def statusChecker.fields (obj : Unstructured) : List (String × String) :=
  [("kind", obj.GetKind), ("apiVersion", obj.GetAPIVersion), ("name", obj.GetName)]

/-- The method `statusChecker.Handle`. A panic of `checkCondition` leaves `Handle` as well. -/
def statusChecker.Handle (ext : Externals Cluster) (h : statusChecker) (obj : Unstructured)
    (w : World Cluster) : Completion Unit × World Cluster :=
  match h.checkCondition ext obj w with
  | (.panicked msg, w1) => (.panicked msg, w1)
  | (.returned (ok, err), w1) =>
    let w2 := if err.isSome then
        h.log.Err err (statusChecker.fields obj) "checking for status.conditions" w1
      else w1
    if !ok then (.returned (), w2)
    else
      let w3 := h.log.Info (statusChecker.fields obj)
        (h.conditionName ++ " is " ++ h.conditionStatus) w2
      match ext.FromUnstructured obj.UnstructuredContent with
      | (cluster, err) =>
        let w4 := if err.isSome then
            h.log.Err err (statusChecker.fields obj) "converting from unstructured" w3
          else w3
        (.returned (),
          Eventf cluster "Normal" "ClusterReady" ("Cluster " ++ obj.GetName ++ " is Ready") w4)

end Handler

/-! ## `internal/watcher/watcher.go` -/

/-- A `time.Duration`, in nanoseconds. -/
abbrev Duration := Int

/-- A `schema.GroupVersionResource`. -/
structure GroupVersionResource where
  Group : String
  Version : String
  Resource : String
  deriving DecidableEq, Repr

/-- The `dynamic.Interface` built from the cluster configuration, named by its configuration. -/
structure DynamicClient where
  config : String
  deriving DecidableEq, Repr

/-- The informer obtained from `NewFilteredDynamicSharedInformerFactory(client, defaultResync,
namespace, nil).ForResource(gvr).Informer()`, described by the arguments that built it. -/
structure SharedInformer where
  client : DynamicClient
  defaultResync : Duration
  Namespace : String
  gvr : GroupVersionResource
  deriving DecidableEq, Repr

/-- The interface `UnstructuredHandler`: its one method `Handle`. -/
abbrev UnstructuredHandler (Cluster : Type) :=
  Unstructured → World Cluster → Completion Unit × World Cluster

/-- The struct `watcher.Opts`. -/
structure Opts (Cluster : Type) where
  DynamicClient : DynamicClient
  GVR : GroupVersionResource
  Handler : UnstructuredHandler Cluster
  ResyncInterval : Duration
  Log : Logger
  Namespace : String

/-- The struct `watcher.Dynamic`. -/
structure Dynamic (Cluster : Type) where
  log : Logger
  handler : UnstructuredHandler Cluster
  informer : SharedInformer

/-- An `interface{}` argument delivered to an event handler function: a `*unstructured.Unstructured`
or a value of another dynamic type (such as `cache.DeletedFinalStateUnknown`). -/
inductive Delivered where
  | unstructured (el : Unstructured)
  | other (typeName : String)

section Watcher
variable {Cluster : Type}

/-- Constructor `watcher.New`. -/
def New (opts : Opts Cluster) : Dynamic Cluster :=
  { informer := ⟨opts.DynamicClient, opts.ResyncInterval, opts.Namespace, opts.GVR⟩
    handler := opts.Handler
    log := opts.Log }

/-- The three `Str` fields attached to the watcher log lines. -/
def Dynamic.fields (el : Unstructured) : List (String × String) :=
  [("kind", el.GetKind), ("name", el.GetName), ("namespace", el.GetNamespace)]

/-- The method `Dynamic.OnAdd`. -/
def Dynamic.OnAdd (er : Dynamic Cluster) (obj : Delivered) (w : World Cluster) :
    Completion Unit × World Cluster :=
  match obj with
  | .unstructured el =>
    er.handler el.DeepCopy (er.log.Debug (Dynamic.fields el) "received add event" w)
  | .other t => (.panicked ("interface conversion: interface {} is " ++ t), w)

/-- The method `Dynamic.OnUpdate`. -/
def Dynamic.OnUpdate (er : Dynamic Cluster) (objOld objNew : Delivered) (w : World Cluster) :
    Completion Unit × World Cluster :=
  match objOld, objNew with
  | _, .unstructured el =>
    er.handler el.DeepCopy (er.log.Debug (Dynamic.fields el) "received update event" w)
  | _, .other t => (.panicked ("interface conversion: interface {} is " ++ t), w)

/-- The method `Dynamic.OnDelete`. -/
def Dynamic.OnDelete (er : Dynamic Cluster) (obj : Delivered) (w : World Cluster) :
    Completion Unit × World Cluster :=
  if !er.log.Enabled Level.debug then (.returned (), w)
  else
    match obj with
    | .unstructured el =>
      (.returned (), er.log.Debug (Dynamic.fields el) "received delete event" w)
    | .other t => (.panicked ("interface conversion: interface {} is " ++ t), w)

end Watcher

/-! ## `main.go` -/

/-- Values of the command line flags after `flag.Parse()`. -/
structure Flags where
  kubeconfig : String
  debug : Bool
  resyncInterval : Duration
  Namespace : String
  deriving DecidableEq, Repr

/-- The constant `time.Minute`. -/
def Minute : Duration := 60 * 1000000000

/-- The logger built in `main`: global level info, or debug with the debug flag. -/
def main.log (flags : Flags) : Logger :=
  ⟨if flags.debug then Level.debug else Level.info⟩

/-- The handler built in `main`. -/
def main.handler (log : Logger) : statusChecker :=
  NewStatusChecker { Log := log, ConditionName := "Ready", ConditionStatus := "True" }

/-- Result of `schema.ParseResourceArg("clusters.v1beta1.cluster.x-k8s.io")`. -/
def main.gvr : GroupVersionResource :=
  { Group := "cluster.x-k8s.io", Version := "v1beta1", Resource := "clusters" }

/-- The `watcher.Opts` literal of `main`. The literal names `DynamicClient`, `GVR`, `Handler`,
`Namespace` and `Log`; `ResyncInterval` is not named and so has the zero value. -/
def main.watcherOpts {Cluster : Type} (flags : Flags) (dc : DynamicClient)
    (handler : UnstructuredHandler Cluster) (log : Logger) : Opts Cluster :=
  { DynamicClient := dc
    GVR := { Group := main.gvr.Group, Version := main.gvr.Version, Resource := main.gvr.Resource }
    Handler := handler
    ResyncInterval := 0
    Namespace := flags.Namespace
    Log := log }

/-- The watcher built in `main`. -/
def main.watcher {Cluster : Type} (ext : Externals Cluster) (flags : Flags) (dc : DynamicClient) :
    Dynamic Cluster :=
  New (main.watcherOpts flags dc ((main.handler (main.log flags)).Handle ext) (main.log flags))

/-! ## Vocabulary of the specification -/

/-- The object has a `status` map whose `conditions` field is the list `conds`. -/
def hasConditions (obj : Unstructured) (conds : List JSONValue) : Prop :=
  ∃ st, mapIndex obj.Object "status" = some (.map st) ∧
    mapIndex st "conditions" = some (.slice conds)

/-- The object lacks a `status.conditions` field: there is no `status`, or `status` is null, or
`status` is a map without the key `conditions`. (A `status` of another shape is the malformed
container of the evaluation-error outcome.) -/
def lacksStatusConditions (obj : Unstructured) : Prop :=
  mapIndex obj.Object "status" = none ∨
  mapIndex obj.Object "status" = some .null ∨
  ∃ st, mapIndex obj.Object "status" = some (.map st) ∧ mapIndex st "conditions" = none

/-- The entry has a string `type` equal to `name` under case-insensitive comparison. -/
def typeMatches (orbit : Char → Char → Bool) (name : String) (co : JSONMap) : Bool :=
  match mapIndex co "type" with
  | some (.string t) => EqualFold orbit t name
  | _ => false

/-- The entry has a string `status` field. -/
def hasStringStatus (co : JSONMap) : Bool :=
  match mapIndex co "status" with
  | some (.string _) => true
  | _ => false

/-- The entry has a string `status` equal to `status` under case-insensitive comparison. -/
def statusMatches (orbit : Char → Char → Bool) (status : String) (co : JSONMap) : Bool :=
  match mapIndex co "status" with
  | some (.string s) => EqualFold orbit s status
  | _ => false

/-- The entry decides the evaluation: its string type matches the condition name and it has a
string status. -/
def qualifies (orbit : Char → Char → Bool) (name : String) (co : JSONMap) : Bool :=
  typeMatches orbit name co && hasStringStatus co

/-- The decision described by the specification for a list of map entries: the first qualifying
entry, in list order, decides by comparing its status; no qualifying entry gives `false`. -/
def firstMatchDecision (orbit : Char → Char → Bool) (h : statusChecker) (entries : List JSONMap) :
    Bool :=
  match entries.find? (qualifies orbit h.conditionName) with
  | some co => statusMatches orbit h.conditionStatus co
  | none => false

/-- Whether `checkCondition` returned with its boolean result true. -/
def returnedTrue : Completion (Bool × Option Error) → Bool
  | .returned (ok, _) => ok
  | .panicked _ => false

/-- Delivery of the same object to `Handle` `n` times in a row, as a resync does; a panic leaves
the later deliveries out. -/
def handleTimes {Cluster : Type} (ext : Externals Cluster) (h : statusChecker) (obj : Unstructured) :
    Nat → World Cluster → World Cluster
  | 0, w => w
  | n + 1, w =>
    match h.Handle ext obj w with
    | (.returned _, w1) => handleTimes ext h obj n w1
    | (.panicked _, w1) => w1

/-! ## Concrete objects -/

/-- A condition entry `{type: t, status: s}`. -/
def condition (t s : String) : JSONValue :=
  .map [("type", .string t), ("status", .string s)]

/-- A cluster object named `a` whose `status.conditions` is `conds`. -/
def clusterWith (conds : List JSONValue) : Unstructured :=
  ⟨[("apiVersion", .string "cluster.x-k8s.io/v1beta1"), ("kind", .string "Cluster"),
    ("metadata", .map [("name", .string "a"), ("namespace", .string "default")]),
    ("status", .map [("conditions", .slice conds)])]⟩

/-- A cluster object named `a` without a `status`. -/
def clusterNoStatus : Unstructured :=
  ⟨[("apiVersion", .string "cluster.x-k8s.io/v1beta1"), ("kind", .string "Cluster"),
    ("metadata", .map [("name", .string "a"), ("namespace", .string "default")])]⟩

/-- Externals for the examples: no fold orbit beyond ASCII, a conversion that fails. -/
def sampleExternals : Externals String :=
  ⟨fun _ _ => false, fun _ => ("", some (.conversion "cannot convert"))⟩

/-- The empty world. -/
def emptyWorld : World String := ⟨[], []⟩

/-- The flags left at their defaults: three minutes of resync interval. -/
def defaultFlags : Flags :=
  { kubeconfig := "", debug := false, resyncInterval := 3 * Minute, Namespace := "" }

/-! ## Lemmas on the accessors -/

mutual
theorem DeepCopyJSONValue_id : ∀ v : JSONValue, DeepCopyJSONValue v = v
  | .null => by simp [DeepCopyJSONValue]
  | .bool _ => by simp [DeepCopyJSONValue]
  | .int64 _ => by simp [DeepCopyJSONValue]
  | .float64 _ => by simp [DeepCopyJSONValue]
  | .string _ => by simp [DeepCopyJSONValue]
  | .slice xs => by simp [DeepCopyJSONValue, DeepCopyJSONSlice_id xs]
  | .map m => by simp [DeepCopyJSONValue, DeepCopyJSONFields_id m]
theorem DeepCopyJSONSlice_id : ∀ xs : List JSONValue, DeepCopyJSONSlice xs = xs
  | [] => by simp [DeepCopyJSONSlice]
  | x :: xs => by simp [DeepCopyJSONSlice, DeepCopyJSONValue_id x, DeepCopyJSONSlice_id xs]
theorem DeepCopyJSONFields_id : ∀ m : List (String × JSONValue), DeepCopyJSONFields m = m
  | [] => by simp [DeepCopyJSONFields]
  | (k, v) :: rest => by
    simp [DeepCopyJSONFields, DeepCopyJSONValue_id v, DeepCopyJSONFields_id rest]
end

theorem Unstructured.DeepCopy_id (u : Unstructured) : u.DeepCopy = u := by
  cases u; simp [Unstructured.DeepCopy, DeepCopyJSONFields_id]

theorem NestedSlice_of_hasConditions {obj : Unstructured} {conds : List JSONValue}
    (hc : hasConditions obj conds) :
    NestedSlice obj.Object ["status", "conditions"] = (conds, true, none) := by
  obtain ⟨st, h1, h2⟩ := hc
  simp [NestedSlice, NestedFieldNoCopy, NestedFieldNoCopy.loop, h1, h2, DeepCopyJSONSlice_id]

theorem NestedSlice_of_lacks {obj : Unstructured} (hl : lacksStatusConditions obj) :
    NestedSlice obj.Object ["status", "conditions"] = ([], false, none) := by
  rcases hl with h1 | h1 | ⟨st, h1, h2⟩ <;>
    simp [NestedSlice, NestedFieldNoCopy, NestedFieldNoCopy.loop, h1, *]

theorem NestedString_single (co : JSONMap) (field : String) :
    NestedString co [field] =
      match mapIndex co field with
      | some (.string s) => (s, true, none)
      | some _ => ("", false, some (.accessor [field] "string"))
      | none => ("", false, none) := by
  cases hm : mapIndex co field with
  | none => simp [NestedString, NestedFieldNoCopy, NestedFieldNoCopy.loop, hm]
  | some v => cases v <;> simp [NestedString, NestedFieldNoCopy, NestedFieldNoCopy.loop, hm]

/-! ## Lemmas on the scan of `checkCondition` -/

theorem loop_map_cons (orbit : Char → Char → Bool) (h : statusChecker) (co : JSONMap)
    (rest : List JSONValue) :
    statusChecker.checkCondition.loop orbit h (.map co :: rest) =
      if qualifies orbit h.conditionName co then
        .returned (statusMatches orbit h.conditionStatus co, none)
      else statusChecker.checkCondition.loop orbit h rest := by
  rw [statusChecker.checkCondition.loop]
  simp only [NestedString_single, qualifies, typeMatches, hasStringStatus, statusMatches]
  cases ht : mapIndex co "type" with
  | none => simp
  | some tv =>
    cases tv <;> simp
    rename_i t
    cases hs : mapIndex co "status" with
    | none => simp
    | some sv =>
      cases sv <;> simp
      all_goals (cases EqualFold orbit t h.conditionName <;> simp)

theorem loop_maps (orbit : Char → Char → Bool) (h : statusChecker) (entries : List JSONMap) :
    statusChecker.checkCondition.loop orbit h (entries.map JSONValue.map) =
      .returned (firstMatchDecision orbit h entries, none) := by
  induction entries with
  | nil => simp [statusChecker.checkCondition.loop, firstMatchDecision]
  | cons co rest ih =>
    rw [List.map_cons, loop_map_cons, ih]
    cases hq : qualifies orbit h.conditionName co <;>
      simp [firstMatchDecision, List.find?, hq]

theorem checkCondition_of_hasConditions {Cluster : Type} (ext : Externals Cluster)
    (h : statusChecker) {obj : Unstructured} {conds : List JSONValue}
    (hc : hasConditions obj conds) (w : World Cluster) :
    h.checkCondition ext obj w =
      (statusChecker.checkCondition.loop ext.simpleFoldOrbit h conds, w) := by
  simp [statusChecker.checkCondition, NestedSlice_of_hasConditions hc]

theorem checkCondition_result_indep {Cluster : Type} (ext : Externals Cluster)
    (h : statusChecker) (obj : Unstructured) (w w' : World Cluster) :
    (h.checkCondition ext obj w).1 = (h.checkCondition ext obj w').1 := by
  unfold statusChecker.checkCondition
  split
  split
  · rfl
  · split <;> rfl

theorem checkCondition_events {Cluster : Type} (ext : Externals Cluster)
    (h : statusChecker) (obj : Unstructured) (w : World Cluster) :
    (h.checkCondition ext obj w).2.events = w.events := by
  unfold statusChecker.checkCondition
  split
  split
  · simp only [Logger.Err, Logger.write]
    split <;> split <;> rfl
  · split
    · simp only [Logger.Info, Logger.write]
      split <;> rfl
    · rfl

theorem loop_decided_at (orbit : Char → Char → Bool) (h : statusChecker) (b : Bool)
    (pre post : List JSONValue) (co : JSONMap)
    (hpre : ∀ e ∈ pre, ∃ c, e = JSONValue.map c ∧
      (qualifies orbit h.conditionName c = true → statusMatches orbit h.conditionStatus c = b))
    (hq : qualifies orbit h.conditionName co = true)
    (hb : statusMatches orbit h.conditionStatus co = b) :
    statusChecker.checkCondition.loop orbit h (pre ++ JSONValue.map co :: post) =
      .returned (b, none) := by
  induction pre with
  | nil => simp [loop_map_cons, hq, hb]
  | cons e pre ih =>
    obtain ⟨c, rfl, hc⟩ := hpre e (List.mem_cons_self _ _)
    have ih1 := ih (fun e1 he1 => hpre e1 (List.mem_cons_of_mem _ he1))
    rw [List.cons_append, loop_map_cons]
    cases hqc : qualifies orbit h.conditionName c
    · simpa using ih1
    · simp [hc hqc]

theorem Handle_of_false {Cluster : Type} (ext : Externals Cluster) (h : statusChecker)
    (obj : Unstructured) (w w1 : World Cluster)
    (hcc : h.checkCondition ext obj w = (.returned (false, none), w1)) :
    h.Handle ext obj w = (.returned (), w1) := by
  simp [statusChecker.Handle, hcc]

theorem loop_no_type_match (orbit : Char → Char → Bool) (h : statusChecker)
    (entries : List JSONMap)
    (hno : ∀ co ∈ entries, typeMatches orbit h.conditionName co = false) :
    statusChecker.checkCondition.loop orbit h (entries.map JSONValue.map) =
      .returned (false, none) := by
  induction entries with
  | nil => simp [statusChecker.checkCondition.loop]
  | cons co rest ih =>
    rw [List.map_cons, loop_map_cons, ih (fun c hc => hno c (List.mem_cons_of_mem _ hc))]
    simp [qualifies, hno co (List.mem_cons_self _ _)]

theorem checkCondition_status_not_map {Cluster : Type} (ext : Externals Cluster)
    (h : statusChecker) (obj : Unstructured) (w : World Cluster) (s : String)
    (hs : mapIndex obj.Object "status" = some (.string s)) :
    (h.checkCondition ext obj w).1 =
      .returned (false, some (.accessor ["status", "conditions"] "map[string]interface{}")) := by
  simp [statusChecker.checkCondition, NestedSlice, NestedFieldNoCopy, NestedFieldNoCopy.loop, hs]

theorem hasConditions_clusterWith (conds : List JSONValue) :
    hasConditions (clusterWith conds) conds :=
  ⟨[("conditions", .slice conds)], rfl, rfl⟩

/-! ## Claims on the condition evaluation -/

/-- C1 (amended): for a checker configured for Ready/True and an object whose status.conditions
list contains a map entry whose string type equals "Ready" and whose string status equals "True"
under case-insensitive comparison, checkCondition returns (true, nil) and writes nothing, provided
every entry before it is a map and none of those has a Ready type together with a string status
that differs from True. -/
theorem checkCondition_ready_true {Cluster : Type} (ext : Externals Cluster) (h : statusChecker)
    (obj : Unstructured) (pre post : List JSONValue) (co : JSONMap) (w : World Cluster)
    (hname : h.conditionName = "Ready") (hstatus : h.conditionStatus = "True")
    (hc : hasConditions obj (pre ++ JSONValue.map co :: post))
    (htype : typeMatches ext.simpleFoldOrbit "Ready" co = true)
    (hstat : statusMatches ext.simpleFoldOrbit "True" co = true)
    (hpre : ∀ e ∈ pre, ∃ c, e = JSONValue.map c ∧
      (qualifies ext.simpleFoldOrbit "Ready" c = true →
        statusMatches ext.simpleFoldOrbit "True" c = true)) :
    h.checkCondition ext obj w = (.returned (true, none), w) := by
  rw [checkCondition_of_hasConditions ext h hc]
  have hs : hasStringStatus co = true := by
    unfold statusMatches at hstat
    unfold hasStringStatus
    split at hstat <;> simp_all
  rw [loop_decided_at ext.simpleFoldOrbit h true pre post co]
  · simpa [hname, hstatus] using hpre
  · simp [qualifies, hname, htype, hs]
  · simpa [hstatus] using hstat

/-- C1 (witness): the amended claim at the list [{Paused, False}, {READY, true}]. -/
theorem checkCondition_ready_true_witness :
    (main.handler ⟨Level.info⟩).checkCondition sampleExternals
        (clusterWith [condition "Paused" "False", condition "READY" "true"]) emptyWorld =
      (.returned (true, none), emptyWorld) :=
  checkCondition_ready_true sampleExternals (main.handler ⟨Level.info⟩)
    (clusterWith [condition "Paused" "False", condition "READY" "true"])
    [condition "Paused" "False"] [] [("type", .string "READY"), ("status", .string "true")]
    emptyWorld rfl rfl (hasConditions_clusterWith _) (by decide) (by decide)
    (by
      intro e he
      refine ⟨[("type", .string "Paused"), ("status", .string "False")], ?_, by decide⟩
      simpa [condition] using he)

/-- C1 (counterexample): the list [{Ready, False}, {Ready, True}] contains a Ready/True entry, yet
checkCondition configured for Ready/True returns (false, nil): the first matching entry decides. -/
theorem checkCondition_ready_true_counterexample :
    hasConditions (clusterWith [condition "Ready" "False", condition "Ready" "True"])
        [condition "Ready" "False", condition "Ready" "True"] ∧
      condition "Ready" "True" ∈ [condition "Ready" "False", condition "Ready" "True"] ∧
      ((main.handler ⟨Level.info⟩).checkCondition sampleExternals
        (clusterWith [condition "Ready" "False", condition "Ready" "True"]) emptyWorld).1 =
        .returned (false, none) :=
  ⟨hasConditions_clusterWith _, by simp, by decide⟩

/-- C2: for every object that lacks a status.conditions field, checkCondition returns
(false, nil); its only effect is the info line "Object miss status.conditions fields.". -/
theorem checkCondition_no_conditions {Cluster : Type} (ext : Externals Cluster)
    (h : statusChecker) (obj : Unstructured) (w : World Cluster)
    (hl : lacksStatusConditions obj) :
    h.checkCondition ext obj w =
      (.returned (false, none), h.log.Info [] "Object miss status.conditions fields." w) := by
  simp [statusChecker.checkCondition, NestedSlice_of_lacks hl]

/-- C2 (witness): a cluster object without a status. -/
theorem checkCondition_no_conditions_witness :
    lacksStatusConditions clusterNoStatus ∧
      (main.handler ⟨Level.info⟩).checkCondition sampleExternals clusterNoStatus emptyWorld =
        (.returned (false, none),
          ⟨[⟨Level.info, none, [], "Object miss status.conditions fields."⟩], []⟩) :=
  ⟨Or.inl rfl,
    checkCondition_no_conditions sampleExternals (main.handler ⟨Level.info⟩) clusterNoStatus
      emptyWorld (Or.inl rfl)⟩

/-- C3 (failing input): the conditions list ["oops"] has no entry whose type equals "Ready", yet
checkCondition does not return (false, nil): the unchecked assertion on the entry panics. -/
theorem checkCondition_no_type_match_panics :
    hasConditions (clusterWith [.string "oops"]) [.string "oops"] ∧
      (main.handler ⟨Level.info⟩).checkCondition sampleExternals
          (clusterWith [.string "oops"]) emptyWorld =
        (.panicked "interface conversion: interface {} is not map[string]interface {}",
          emptyWorld) :=
  ⟨hasConditions_clusterWith _, by
    rw [checkCondition_of_hasConditions _ _ (hasConditions_clusterWith _)]
    rfl⟩

/-- C4 (amended): for a checker configured for Ready/True and an object whose status.conditions
list contains the entry {type: "Ready", status: "False"}, checkCondition returns (false, nil) and
Handle returns without any call to the event recorder (and without any log line), provided every
entry before that entry is a map and none of those has a Ready type together with a True
status. -/
theorem checkCondition_ready_false {Cluster : Type} (ext : Externals Cluster) (h : statusChecker)
    (obj : Unstructured) (pre post : List JSONValue) (co : JSONMap) (w : World Cluster)
    (hname : h.conditionName = "Ready") (hstatus : h.conditionStatus = "True")
    (hc : hasConditions obj (pre ++ JSONValue.map co :: post))
    (htype : mapIndex co "type" = some (.string "Ready"))
    (hstat : mapIndex co "status" = some (.string "False"))
    (hpre : ∀ e ∈ pre, ∃ c, e = JSONValue.map c ∧
      ¬ (qualifies ext.simpleFoldOrbit "Ready" c = true ∧
          statusMatches ext.simpleFoldOrbit "True" c = true)) :
    h.checkCondition ext obj w = (.returned (false, none), w) ∧
      h.Handle ext obj w = (.returned (), w) ∧
      (h.Handle ext obj w).2.events = w.events := by
  have hcc : h.checkCondition ext obj w = (.returned (false, none), w) := by
    rw [checkCondition_of_hasConditions ext h hc]
    have hrr : EqualFold ext.simpleFoldOrbit "Ready" "Ready" = true := rfl
    have hft : EqualFold ext.simpleFoldOrbit "False" "True" = false := rfl
    rw [loop_decided_at ext.simpleFoldOrbit h false pre post co]
    · intro e he
      obtain ⟨c, hec, hn⟩ := hpre e he
      refine ⟨c, hec, ?_⟩
      rw [hname, hstatus]
      intro hq
      cases hsm : statusMatches ext.simpleFoldOrbit "True" c
      · rfl
      · exact absurd ⟨hq, hsm⟩ hn
    · simp [qualifies, typeMatches, hasStringStatus, hname, htype, hstat, hrr]
    · simp [statusMatches, hstatus, hstat, hft]
  have hh := Handle_of_false ext h obj w w hcc
  exact ⟨hcc, hh, by rw [hh]⟩

/-- C4 (witness): the amended claim at the list [{ready, Unknown}, {Ready, False}]. -/
theorem checkCondition_ready_false_witness :
    (main.handler ⟨Level.info⟩).checkCondition sampleExternals
          (clusterWith [condition "ready" "Unknown", condition "Ready" "False"]) emptyWorld =
        (.returned (false, none), emptyWorld) ∧
      (main.handler ⟨Level.info⟩).Handle sampleExternals
          (clusterWith [condition "ready" "Unknown", condition "Ready" "False"]) emptyWorld =
        (.returned (), emptyWorld) ∧
      ((main.handler ⟨Level.info⟩).Handle sampleExternals
          (clusterWith [condition "ready" "Unknown", condition "Ready" "False"])
          emptyWorld).2.events = emptyWorld.events :=
  checkCondition_ready_false sampleExternals (main.handler ⟨Level.info⟩)
    (clusterWith [condition "ready" "Unknown", condition "Ready" "False"])
    [condition "ready" "Unknown"] [] [("type", .string "Ready"), ("status", .string "False")]
    emptyWorld rfl rfl (hasConditions_clusterWith _) rfl rfl
    (by
      intro e he
      refine ⟨[("type", .string "ready"), ("status", .string "Unknown")], ?_, by decide⟩
      simpa [condition] using he)

/-- C4 (counterexample): the list [{Ready, True}, {Ready, False}] contains the entry
{Ready, False}, yet checkCondition configured for Ready/True returns (true, nil) and Handle makes
one call to the event recorder. -/
theorem checkCondition_ready_false_counterexample :
    hasConditions (clusterWith [condition "Ready" "True", condition "Ready" "False"])
        [condition "Ready" "True", condition "Ready" "False"] ∧
      condition "Ready" "False" ∈ [condition "Ready" "True", condition "Ready" "False"] ∧
      ((main.handler ⟨Level.info⟩).checkCondition sampleExternals
        (clusterWith [condition "Ready" "True", condition "Ready" "False"]) emptyWorld).1 =
        .returned (true, none) ∧
      ((main.handler ⟨Level.info⟩).Handle sampleExternals
        (clusterWith [condition "Ready" "True", condition "Ready" "False"])
        emptyWorld).2.events.length = 1 :=
  ⟨hasConditions_clusterWith _, by simp, by decide, by decide⟩

/-- C5: for every object whose status.conditions is a list of map entries, checkCondition returns
(b, nil) and writes nothing, where b is decided by the first entry, in list order, whose string
type equals conditionName case-insensitively and which has a string status: b is the
case-insensitive equality of that status with conditionStatus, and b is false when no entry
qualifies. A type-matching first entry without a status field is skipped: the result is the one
of the later entries. -/
theorem checkCondition_first_match {Cluster : Type} (ext : Externals Cluster) (h : statusChecker)
    (obj : Unstructured) (entries : List JSONMap) (w : World Cluster)
    (hc : hasConditions obj (entries.map JSONValue.map)) :
    h.checkCondition ext obj w =
        (.returned (firstMatchDecision ext.simpleFoldOrbit h entries, none), w) ∧
      (∀ co rest, entries = co :: rest →
        typeMatches ext.simpleFoldOrbit h.conditionName co = true →
        mapIndex co "status" = none →
        (h.checkCondition ext obj w).1 =
          statusChecker.checkCondition.loop ext.simpleFoldOrbit h (rest.map JSONValue.map)) := by
  have hcc := checkCondition_of_hasConditions ext h hc w
  refine ⟨by rw [hcc, loop_maps], ?_⟩
  intro co rest he _ hs
  subst he
  rw [hcc, List.map_cons, loop_map_cons]
  simp [qualifies, hasStringStatus, hs]

/-- C5 (witness): in [{Ready without status}, {READY, true}, {Ready, False}] the first entry is
skipped and the second decides. -/
theorem checkCondition_first_match_witness :
    (main.handler ⟨Level.info⟩).checkCondition sampleExternals
        (clusterWith [.map [("type", .string "Ready")], condition "READY" "true",
          condition "Ready" "False"]) emptyWorld =
      (.returned (true, none), emptyWorld) :=
  (checkCondition_first_match sampleExternals (main.handler ⟨Level.info⟩)
    (clusterWith [.map [("type", .string "Ready")], condition "READY" "true",
      condition "Ready" "False"])
    [[("type", .string "Ready")], [("type", .string "READY"), ("status", .string "true")],
      [("type", .string "Ready"), ("status", .string "False")]]
    emptyWorld (hasConditions_clusterWith _)).1

/-- C6 (failing input): on the conditions list ["oops", {Ready, True}] checkCondition panics at
the malformed entry, while on the list with that entry removed it returns (true, nil). -/
theorem checkCondition_malformed_entry_panics :
    (main.handler ⟨Level.info⟩).checkCondition sampleExternals
          (clusterWith [.string "oops", condition "Ready" "True"]) emptyWorld =
        (.panicked "interface conversion: interface {} is not map[string]interface {}",
          emptyWorld) ∧
      (main.handler ⟨Level.info⟩).checkCondition sampleExternals
          (clusterWith [condition "Ready" "True"]) emptyWorld =
        (.returned (true, none), emptyWorld) := by
  constructor
  · rw [checkCondition_of_hasConditions _ _ (hasConditions_clusterWith _)]
    rfl
  · rw [checkCondition_of_hasConditions _ _ (hasConditions_clusterWith _)]
    rfl

/-! ## Claims on `Handle`, the watcher callbacks and `main` -/

theorem Logger.write_events {Cluster : Type} (l : Logger) (lvl : Level) (err : Option Error)
    (fields : List (String × String)) (message : String) (w : World Cluster) :
    (l.write lvl err fields message w).events = w.events := by
  unfold Logger.write
  split <;> rfl

theorem Logger.Err_events {Cluster : Type} (l : Logger) (err : Option Error)
    (fields : List (String × String)) (message : String) (w : World Cluster) :
    (l.Err err fields message w).events = w.events := by
  unfold Logger.Err
  split <;> exact Logger.write_events _ _ _ _ _ _

theorem Logger.Info_events {Cluster : Type} (l : Logger)
    (fields : List (String × String)) (message : String) (w : World Cluster) :
    (l.Info fields message w).events = w.events :=
  Logger.write_events _ _ _ _ _ _

theorem Handle_events {Cluster : Type} (ext : Externals Cluster) (h : statusChecker)
    (obj : Unstructured) (w : World Cluster) :
    (h.Handle ext obj w).2.events =
      w.events ++
        (if returnedTrue (h.checkCondition ext obj w).1 then
          [⟨(ext.FromUnstructured obj.UnstructuredContent).1, "Normal", "ClusterReady",
            "Cluster " ++ obj.GetName ++ " is Ready"⟩]
        else []) := by
  have hev := checkCondition_events ext h obj w
  unfold statusChecker.Handle
  generalize ext.FromUnstructured obj.UnstructuredContent = conv
  obtain ⟨cluster, cerr⟩ := conv
  cases hcc : h.checkCondition ext obj w with
  | mk c w1 =>
    rw [hcc] at hev
    simp only at hev
    cases c with
    | panicked msg => simp [returnedTrue, hev]
    | returned r =>
      obtain ⟨ok, err⟩ := r
      cases ok
      · cases err <;> simp [returnedTrue, Logger.Err_events, hev]
      · cases err <;> cases cerr <;>
          simp [returnedTrue, Eventf, Logger.Err_events, Logger.Info_events, hev]

theorem Handle_completion {Cluster : Type} (ext : Externals Cluster) (h : statusChecker)
    (obj : Unstructured) (w : World Cluster) :
    (h.Handle ext obj w).1 =
      match (h.checkCondition ext obj w).1 with
      | .returned _ => .returned ()
      | .panicked msg => .panicked msg := by
  unfold statusChecker.Handle
  cases hcc : h.checkCondition ext obj w with
  | mk c w1 =>
    cases c with
    | panicked msg => rfl
    | returned r =>
      obtain ⟨ok, err⟩ := r
      cases ok <;> rfl

theorem handleTimes_events_length {Cluster : Type} (ext : Externals Cluster) (h : statusChecker)
    (obj : Unstructured) (n : Nat) (w : World Cluster) :
    (handleTimes ext h obj n w).events.length =
      w.events.length + (if returnedTrue (h.checkCondition ext obj w).1 then n else 0) := by
  induction n generalizing w with
  | zero => simp [handleTimes]
  | succ n ih =>
    have hev := Handle_events ext h obj w
    have hco := Handle_completion ext h obj w
    unfold handleTimes
    cases hh : h.Handle ext obj w with
    | mk c w1 =>
      rw [hh] at hev hco
      cases c with
      | returned u =>
        simp only
        rw [ih w1, checkCondition_result_indep ext h obj w1 w]
        simp only at hev
        rw [hev]
        split
        · simp; omega
        · simp
      | panicked msg =>
        simp only at hev hco ⊢
        cases hc : (h.checkCondition ext obj w).1 with
        | returned r => rw [hc] at hco; cases hco
        | panicked m => rw [hev, hc]; simp [returnedTrue]

/-- C7: for every object and every outcome of the unstructured-to-Cluster conversion, Handle
appends exactly one recorder call (on the converted cluster, type Normal, reason ClusterReady)
when checkCondition returns true and none otherwise, an evaluation error or a panic of
checkCondition included; handling the same object n times adds n recorder calls when
checkCondition returns true on it, and none otherwise. -/
theorem Handle_recorder_calls {Cluster : Type} (ext : Externals Cluster) (h : statusChecker)
    (obj : Unstructured) (w : World Cluster) :
    (h.Handle ext obj w).2.events =
        w.events ++
          (if returnedTrue (h.checkCondition ext obj w).1 then
            [⟨(ext.FromUnstructured obj.UnstructuredContent).1, "Normal", "ClusterReady",
              "Cluster " ++ obj.GetName ++ " is Ready"⟩]
          else []) ∧
      (h.Handle ext obj w).2.events.length =
        w.events.length + (if returnedTrue (h.checkCondition ext obj w).1 then 1 else 0) ∧
      ∀ n : Nat, (handleTimes ext h obj n w).events.length =
        w.events.length + (if returnedTrue (h.checkCondition ext obj w).1 then n else 0) := by
  refine ⟨Handle_events ext h obj w, ?_, fun n => handleTimes_events_length ext h obj n w⟩
  rw [Handle_events]
  split <;> simp

/-- C8: for every delivered object, at any log level and in any world, OnDelete does not depend
on the handler (it never invokes it) and leaves the recorder calls unchanged; OnAdd and OnUpdate
on a delivered Unstructured are one invocation of the handler on the deep copy of the (new)
object, after the debug line, and the deep copy has the content of the object. -/
theorem watcher_callbacks {Cluster : Type} (er : Dynamic Cluster) (w : World Cluster) :
    (∀ (obj : Delivered) (handler : UnstructuredHandler Cluster),
        Dynamic.OnDelete ⟨er.log, handler, er.informer⟩ obj w = Dynamic.OnDelete er obj w ∧
        (Dynamic.OnDelete er obj w).2.events = w.events) ∧
      (∀ el : Unstructured,
        Dynamic.OnAdd er (.unstructured el) w =
          er.handler el.DeepCopy (er.log.Debug (Dynamic.fields el) "received add event" w) ∧
        el.DeepCopy = el) ∧
      (∀ (objOld : Delivered) (el : Unstructured),
        Dynamic.OnUpdate er objOld (.unstructured el) w =
          er.handler el.DeepCopy (er.log.Debug (Dynamic.fields el) "received update event" w) ∧
        el.DeepCopy = el) := by
  refine ⟨fun obj handler => ⟨rfl, ?_⟩, fun el => ⟨rfl, el.DeepCopy_id⟩,
    fun objOld el => ⟨?_, el.DeepCopy_id⟩⟩
  · unfold Dynamic.OnDelete
    split
    · rfl
    · cases obj with
      | unstructured el => exact Logger.write_events _ _ _ _ _ _
      | other t => rfl
  · cases objOld <;> rfl

/-- C9 (failing input): watcher.New hands Opts.ResyncInterval to the informer factory, but the
Opts literal of main does not set it: for all flags the watcher of main is built with a resync
period of zero, and with the default flags (three minutes) the Opts field differs from the
configured interval. -/
theorem main_watcher_resync_interval :
    (∀ opts : Opts String, (New opts).informer.defaultResync = opts.ResyncInterval) ∧
      (∀ (flags : Flags) (dc : DynamicClient),
        (main.watcher sampleExternals flags dc).informer.defaultResync = 0) ∧
      defaultFlags.resyncInterval = 180000000000 ∧
      (main.watcherOpts defaultFlags ⟨""⟩
          ((main.handler (main.log defaultFlags)).Handle sampleExternals)
          (main.log defaultFlags)).ResyncInterval ≠ defaultFlags.resyncInterval :=
  ⟨fun _ => rfl, fun _ _ => rfl, by decide, by decide⟩

/-- C10 (failing input): with the watcher wired as in main, OnAdd and OnUpdate on an object whose
conditions list is ["oops"] end in the panic of checkCondition: the panic leaves Handle and the
callback, no code on that path recovers it. -/
theorem callback_panic_escapes :
    Dynamic.OnAdd (main.watcher sampleExternals defaultFlags ⟨""⟩)
          (.unstructured (clusterWith [.string "oops"])) emptyWorld =
        (.panicked "interface conversion: interface {} is not map[string]interface {}",
          emptyWorld) ∧
      Dynamic.OnUpdate (main.watcher sampleExternals defaultFlags ⟨""⟩)
          (.unstructured (clusterWith [])) (.unstructured (clusterWith [.string "oops"]))
          emptyWorld =
        (.panicked "interface conversion: interface {} is not map[string]interface {}",
          emptyWorld) := by
  have hh : (main.handler (main.log defaultFlags)).Handle sampleExternals
      (clusterWith [.string "oops"]) emptyWorld =
      (.panicked "interface conversion: interface {} is not map[string]interface {}",
        emptyWorld) := by
    unfold statusChecker.Handle
    rw [checkCondition_of_hasConditions _ _ (hasConditions_clusterWith _)]
    rfl
  constructor
  · show (main.handler (main.log defaultFlags)).Handle sampleExternals
      (clusterWith [.string "oops"]).DeepCopy _ = _
    rw [Unstructured.DeepCopy_id]
    exact hh
  · show (main.handler (main.log defaultFlags)).Handle sampleExternals
      (clusterWith [.string "oops"]).DeepCopy _ = _
    rw [Unstructured.DeepCopy_id]
    exact hh

end CapiWatcher
